import Mathlib

/-!
Verification of the smart-notification service core (src/main.py).

The service exposes one operation, generate_notifications, which serializes a
learner-activity snapshot, sends it to an external text-generation collaborator
(Gemini) inside a bounded retry loop with exponential backoff and jitter, and
returns the JSON-parsed response body to the caller.

The embedding below translates the Python source into Lean:
- the pydantic models PaymentInfo, VideoInfo, LearnerRequest become structures
  (Python dicts become association lists in insertion/iteration order);
- json.dumps of the request payload becomes payload_str (faithful to Python
  default separators and field order for ASCII data);
- json.loads becomes json_loads, a fueled recursive-descent reader producing a
  Json value or an error message (positions in Python error messages and
  fractional/exponent number forms are not modelled; the claims under study
  never depend on them);
- the external collaborator and the random jitter are oracles passed as
  arguments: collab gives, per attempt index and request contents, either a
  response text or a raised error message, and jitter gives the value drawn by
  random.uniform(0, 0.5) before each retry;
- the retry loop becomes retry_loop, recording the result (normal return or
  raised HTTPException), the contents string of every collaborator call, and
  every duration passed to time.sleep.
-/

/-- Model of pydantic PaymentInfo from src/main.py. -/
structure PaymentInfo where
  count : Int
  courseId : Int
  courseName : String
  lastVisitedAt : Int
deriving DecidableEq

/-- Model of pydantic VideoInfo from src/main.py. -/
structure VideoInfo where
  completion : Int
  lastWatchedAt : Int
  videoId : Int
  videoName : String
deriving DecidableEq

/-- Model of pydantic LearnerRequest from src/main.py: the two dicts are kept
as association lists in their iteration (insertion) order. -/
structure LearnerRequest where
  payments : List (String × PaymentInfo)
  videos : List (String × VideoInfo)
deriving DecidableEq

/-- JSON values as produced by the Python json module (numbers restricted to
integers, which is all this development needs). -/
inductive Json where
  | null
  | bool (b : Bool)
  | num (n : Int)
  | str (s : String)
  | arr (elems : List Json)
  | obj (fields : List (String × Json))

/-- Escape of a single character inside a JSON string literal, as json.dumps
with default ensure_ascii produces it (non-ASCII restricted to the basic
multilingual plane, which is all this development needs). -/
def json_escape_char (c : Char) : String :=
  if c = '"' then "\\\""
  else if c = '\\' then "\\\\"
  else if c.toNat < 32 ∨ 126 < c.toNat then
    let ds := Nat.toDigits 16 c.toNat
    "\\u" ++ String.mk (List.replicate (4 - ds.length) '0' ++ ds)
  else String.singleton c

/-- Escape of a whole string body for a JSON string literal. -/
def json_escape (s : String) : String :=
  String.join (s.toList.map json_escape_char)

/-- A JSON string literal with its surrounding quotes. -/
def dump_string (s : String) : String :=
  "\"" ++ json_escape s ++ "\""

/-- Serialization of one PaymentInfo as json.dumps(model_dump) renders it:
declaration field order, default separators. -/
def dump_payment (p : PaymentInfo) : String :=
  "\x7b\"count\": " ++ toString p.count ++
  ", \"courseId\": " ++ toString p.courseId ++
  ", \"courseName\": " ++ dump_string p.courseName ++
  ", \"lastVisitedAt\": " ++ toString p.lastVisitedAt ++ "\x7d"

/-- Serialization of one VideoInfo as json.dumps(model_dump) renders it. -/
def dump_video (v : VideoInfo) : String :=
  "\x7b\"completion\": " ++ toString v.completion ++
  ", \"lastWatchedAt\": " ++ toString v.lastWatchedAt ++
  ", \"videoId\": " ++ toString v.videoId ++
  ", \"videoName\": " ++ dump_string v.videoName ++ "\x7d"

/-- Serialization of a string-keyed dict in iteration order. -/
def dump_dict {α : Type} (f : α → String) (kvs : List (String × α)) : String :=
  "\x7b" ++ String.intercalate ", "
    (kvs.map (fun kv => dump_string kv.1 ++ ": " ++ f kv.2)) ++ "\x7d"

/-- Model of payload_str = json.dumps(data.model_dump()) in src/main.py. -/
def payload_str (data : LearnerRequest) : String :=
  "\x7b\"payments\": " ++ dump_dict dump_payment data.payments ++
  ", \"videos\": " ++ dump_dict dump_video data.videos ++ "\x7d"

/-- Model of the contents argument built by the f-string in the source:
"Learner Data: " followed by the serialized payload. -/
def contents_for (data : LearnerRequest) : String :=
  "Learner Data: " ++ payload_str data

/-- Whitespace skipping for the JSON reader. -/
def skipWs : List Char → List Char
  | [] => []
  | c :: cs =>
    if c = ' ' ∨ c = '\t' ∨ c = '\n' ∨ c = '\r' then skipWs cs else c :: cs

/-- Decoding of a single escape character inside a JSON string
(the \u form is not modelled; no claim depends on it). -/
def unescape_char (e : Char) : Option Char :=
  if e = '"' then some '"'
  else if e = '\\' then some '\\'
  else if e = '/' then some '/'
  else if e = 'n' then some '\n'
  else if e = 't' then some '\t'
  else if e = 'r' then some '\r'
  else if e = 'b' then some (Char.ofNat 8)
  else if e = 'f' then some (Char.ofNat 12)
  else none

/-- Reading of the body of a JSON string literal after its opening quote. -/
def parseStringChars : List Char → List Char → Except String (String × List Char)
  | _, [] => Except.error "Unterminated string"
  | acc, c :: cs =>
    if c = '"' then Except.ok (String.mk acc.reverse, cs)
    else if c = '\\' then
      match cs with
      | [] => Except.error "Unterminated string"
      | e :: cs' =>
        match unescape_char e with
        | some ch => parseStringChars (ch :: acc) cs'
        | none => Except.error "Invalid escape"
    else parseStringChars (c :: acc) cs

/-- Reading of a run of decimal digits. -/
def parseDigits : List Char → Nat → (Nat × List Char)
  | [], a => (a, [])
  | c :: cs, acc =>
    if c.isDigit then parseDigits cs (acc * 10 + (c.toNat - 48))
    else (acc, c :: cs)

/-- Completion of a number token (fractional and exponent forms are outside
this model and reported as errors; no claim depends on them). -/
def finishNumber (n : Int) (r : List Char) : Except String (Json × List Char) :=
  match r with
  | '.' :: _ => Except.error "Unsupported number"
  | 'e' :: _ => Except.error "Unsupported number"
  | 'E' :: _ => Except.error "Unsupported number"
  | _ => Except.ok (Json.num n, r)

/-- Reading of a JSON number token. -/
def parseNumber : List Char → Except String (Json × List Char)
  | '-' :: d :: rest =>
    if d.isDigit then
      let (n, r) := parseDigits rest (d.toNat - 48)
      finishNumber (-(n : Int)) r
    else Except.error "Expecting value"
  | d :: rest =>
    if d.isDigit then
      let (n, r) := parseDigits rest (d.toNat - 48)
      finishNumber (n : Int) r
    else Except.error "Expecting value"
  | [] => Except.error "Expecting value"

mutual

/-- Fueled recursive-descent reading of one JSON value. -/
def parseValue : Nat → List Char → Except String (Json × List Char)
  | 0, _ => Except.error "Expecting value"
  | fuel + 1, cs0 =>
    match skipWs cs0 with
    | [] => Except.error "Expecting value"
    | c :: rest =>
      if c = 'n' then
        match rest with
        | 'u' :: 'l' :: 'l' :: r => Except.ok (Json.null, r)
        | _ => Except.error "Expecting value"
      else if c = 't' then
        match rest with
        | 'r' :: 'u' :: 'e' :: r => Except.ok (Json.bool true, r)
        | _ => Except.error "Expecting value"
      else if c = 'f' then
        match rest with
        | 'a' :: 'l' :: 's' :: 'e' :: r => Except.ok (Json.bool false, r)
        | _ => Except.error "Expecting value"
      else if c = '"' then
        match parseStringChars [] rest with
        | Except.ok (s, r) => Except.ok (Json.str s, r)
        | Except.error m => Except.error m
      else if c = '[' then
        match skipWs rest with
        | ']' :: r => Except.ok (Json.arr [], r)
        | cs1 => parseItems fuel cs1 []
      else if c = '\x7b' then
        match skipWs rest with
        | '\x7d' :: r => Except.ok (Json.obj [], r)
        | cs1 => parseMembers fuel cs1 []
      else parseNumber (c :: rest)

/-- Fueled reading of the comma-separated items of a nonempty JSON array. -/
def parseItems : Nat → List Char → List Json → Except String (Json × List Char)
  | 0, _, _ => Except.error "Expecting value"
  | fuel + 1, cs, acc =>
    match parseValue fuel cs with
    | Except.error m => Except.error m
    | Except.ok (v, rest) =>
      match skipWs rest with
      | ',' :: rest' => parseItems fuel rest' (v :: acc)
      | ']' :: rest' => Except.ok (Json.arr (v :: acc).reverse, rest')
      | _ => Except.error "Expecting delimiter"

/-- Fueled reading of the members of a nonempty JSON object. -/
def parseMembers : Nat → List Char → List (String × Json) →
    Except String (Json × List Char)
  | 0, _, _ => Except.error "Expecting property name"
  | fuel + 1, cs, acc =>
    match skipWs cs with
    | '"' :: rest =>
      match parseStringChars [] rest with
      | Except.error m => Except.error m
      | Except.ok (k, rest1) =>
        match skipWs rest1 with
        | ':' :: rest2 =>
          match parseValue fuel rest2 with
          | Except.error m => Except.error m
          | Except.ok (v, rest3) =>
            match skipWs rest3 with
            | ',' :: rest4 => parseMembers fuel rest4 ((k, v) :: acc)
            | '\x7d' :: rest4 => Except.ok (Json.obj ((k, v) :: acc).reverse, rest4)
            | _ => Except.error "Expecting delimiter"
        | _ => Except.error "Expecting colon"
    | _ => Except.error "Expecting property name"

end

/-- Model of json.loads: read one JSON value and require only whitespace
after it. -/
def json_loads (s : String) : Except String Json :=
  match parseValue (2 * s.length + 4) s.toList with
  | Except.error m => Except.error m
  | Except.ok (v, rest) =>
    if (skipWs rest).isEmpty then Except.ok v else Except.error "Extra data"

/-- Outcome of one call to client.models.generate_content: either a response
whose text field is returned, or a raised exception whose str(e) is msg. -/
inductive AttemptOutcome where
  | ok (text : String)
  | err (msg : String)

/-- Retry configuration constant max_retries from src/main.py. -/
def max_retries : Nat := 3

/-- Retry configuration constant base_delay (1.0 seconds) from src/main.py,
modelled in the rationals. -/
def base_delay : ℚ := 1

/-- Retry configuration constant retry_codes from src/main.py. -/
def retry_codes : List String := ["429", "500", "503", "504"]

/-- Test that one list is a contiguous prefix of another. -/
def starts_with : List Char → List Char → Bool
  | [], _ => true
  | _ :: _, [] => false
  | p :: ps, c :: cs => p == c && starts_with ps cs

/-- Test that needle occurs contiguously inside hay. -/
def contains_sub (hay needle : List Char) : Bool :=
  match hay with
  | [] => needle.isEmpty
  | _ :: rest => starts_with needle hay || contains_sub rest needle

/-- Model of the Python substring test code in error_msg. -/
def str_contains (hay pat : String) : Bool :=
  contains_sub hay.toList pat.toList

/-- Model of is_transient from src/main.py: any(code in error_msg for code in
retry_codes). -/
def is_transient_error (error_msg : String) : Bool :=
  retry_codes.any (fun code => str_contains error_msg code)

/-- Model of the body of the try block for one attempt: call the collaborator,
then json.loads(response.text). An exception raised by either step reaches the
except handler as its message. -/
def attempt_body (outcome : AttemptOutcome) : Except String Json :=
  match outcome with
  | AttemptOutcome.ok text => json_loads text
  | AttemptOutcome.err msg => Except.error msg

/-- Model of fastapi HTTPException as raised in src/main.py. -/
structure HTTPException where
  status_code : Nat
  detail : String

/-- Observable outcome of one run of the endpoint: the returned value or the
raised HTTPException, the contents string of every collaborator invocation in
order, and every duration passed to time.sleep in order. -/
structure RunResult where
  result : Except HTTPException Json
  calls : List String
  sleeps : List ℚ

/-- Model of the for-attempt-in-range(max_retries) loop of src/main.py. The
collab oracle gives each attempt's outcome, the jitter oracle gives the value
drawn by random.uniform(0, 0.5) for each attempt. The remaining argument is
structural fuel equal to the number of loop iterations left; the fuel-exhausted
base case models the (unreachable) loop fall-through, where the Python function
would implicitly return None. -/
def retry_loop (collab : Nat → String → AttemptOutcome) (jitter : Nat → ℚ)
    (contents : String) : Nat → Nat → RunResult
  | _, 0 => { result := Except.ok Json.null, calls := [], sleeps := [] }
  | attempt, remaining + 1 =>
    match attempt_body (collab attempt contents) with
    | Except.ok v => { result := Except.ok v, calls := [contents], sleeps := [] }
    | Except.error error_msg =>
      let is_last_attempt := attempt == max_retries - 1
      let is_transient := is_transient_error error_msg
      if is_transient && !is_last_attempt then
        let sleep_time := base_delay * 2 ^ attempt + jitter attempt
        let rest := retry_loop collab jitter contents (attempt + 1) remaining
        { result := rest.result, calls := contents :: rest.calls,
          sleeps := sleep_time :: rest.sleeps }
      else
        { result := Except.error (HTTPException.mk 500 error_msg),
          calls := [contents], sleeps := [] }

/-- Model of the endpoint generate_notifications from src/main.py: serialize
the snapshot, then run the retry loop from attempt 0 with max_retries
iterations available. -/
def generate_notifications (data : LearnerRequest)
    (collab : Nat → String → AttemptOutcome) (jitter : Nat → ℚ) : RunResult :=
  retry_loop collab jitter (contents_for data) 0 max_retries

/-- The draft type enum of the response_schema literal in src/main.py. -/
def draft_type_enum : List String :=
  ["milestone", "reminder", "alert", "promotion", "engagement"]

/-- Lookup of a field in a parsed JSON object. -/
def json_field (fields : List (String × Json)) (k : String) : Option Json :=
  (fields.find? (fun kv => kv.1 == k)).map (fun kv => kv.2)

/-- Conformance of one item to the OBJECT schema inside response_schema in
src/main.py: the five required fields present with their declared types, the
type field drawn from the enum. -/
def matches_item_schema (j : Json) : Bool :=
  match j with
  | Json.obj fields =>
    (match json_field fields "id" with
     | some (Json.str _) => true
     | _ => false) &&
    (match json_field fields "title" with
     | some (Json.str _) => true
     | _ => false) &&
    (match json_field fields "body" with
     | some (Json.str _) => true
     | _ => false) &&
    (match json_field fields "sendNow" with
     | some (Json.bool _) => true
     | _ => false) &&
    (match json_field fields "type" with
     | some (Json.str t) => draft_type_enum.contains t
     | _ => false)
  | _ => false

/-- Conformance to the declared response_schema in src/main.py: an ARRAY whose
items all conform to the item schema. The schema literal declares no bound on
the array length. -/
def matches_response_schema (j : Json) : Bool :=
  match j with
  | Json.arr items => items.all matches_item_schema
  | _ => false

/-- Stated from the claim wording, for comparison with the code: a JSON array
of one to three objects, each carrying exactly the five required fields with
their declared types and the type field drawn from the enum. -/
def claim_c8_shape (j : Json) : Bool :=
  match j with
  | Json.arr items =>
    decide (1 ≤ items.length) && decide (items.length ≤ 3) &&
    items.all (fun it =>
      matches_item_schema it &&
      (match it with
       | Json.obj fields => fields.length == 5
       | _ => false))
  | _ => false

/-- Event types of the derived events described by the specification. -/
inductive EventType where
  | payment_promotion
  | video_resume
  | video_milestone
  | video_start
deriving DecidableEq

/-- Event priorities described by the specification. -/
inductive Priority where
  | urgent
  | high
  | medium
  | low
deriving DecidableEq

/-- A derived event as described by the specification. -/
structure Event where
  eventType : EventType
  context : String
  priority : Priority
deriving DecidableEq

/-- Stated from the specification wording, for comparison with the code
(src/main.py contains no such function): classification of one video entry
into the mutually exclusive completion bands of the Signal Extractor. The
context wording is a presentation detail left open by the specification; a
concrete interpolation of name and percentage is chosen here. -/
def classify_video (v : VideoInfo) : Event :=
  if v.completion = 0 then
    Event.mk EventType.video_start v.videoName Priority.low
  else if v.completion < 95 then
    Event.mk EventType.video_resume
      (v.videoName ++ " at " ++ toString v.completion ++ "%") Priority.high
  else
    Event.mk EventType.video_milestone
      (v.videoName ++ " at " ++ toString v.completion ++ "%") Priority.medium

/-- Stated from the specification wording, for comparison with the code
(src/main.py contains no such function): the Signal Extractor, producing the
payment event first when the payments mapping is nonempty (one event for a
single arbitrarily chosen entry, here the first), then one event per video in
iteration order. -/
def signal_extractor_spec (data : LearnerRequest) : List Event :=
  (match data.payments with
   | [] => []
   | (_, p) :: _ =>
     [Event.mk EventType.payment_promotion p.courseName Priority.urgent]) ++
  data.videos.map (fun kv => classify_video kv.2)

/-- Unfolding of the loop at attempt 0 when the first attempt succeeds. -/
theorem retry_at0_ok (collab : Nat → String → AttemptOutcome) (jitter : Nat → ℚ)
    (c : String) (v : Json) (h : attempt_body (collab 0 c) = Except.ok v) :
    retry_loop collab jitter c 0 3 =
      { result := Except.ok v, calls := [c], sleeps := [] } := by
  rw [show (3 : Nat) = 2 + 1 from rfl]
  simp [retry_loop, h]

/-- Unfolding of the loop at attempt 0 when the first attempt fails with a
non-transient error. -/
theorem retry_at0_fatal (collab : Nat → String → AttemptOutcome) (jitter : Nat → ℚ)
    (c : String) (m : String) (h : attempt_body (collab 0 c) = Except.error m)
    (ht : is_transient_error m = false) :
    retry_loop collab jitter c 0 3 =
      { result := Except.error (HTTPException.mk 500 m), calls := [c], sleeps := [] } := by
  rw [show (3 : Nat) = 2 + 1 from rfl]
  simp [retry_loop, h, ht, max_retries]

/-- Unfolding of the loop at attempt 0 when the first attempt fails with a
transient error: sleep, then continue at attempt 1. -/
theorem retry_at0_retry (collab : Nat → String → AttemptOutcome) (jitter : Nat → ℚ)
    (c : String) (m : String) (h : attempt_body (collab 0 c) = Except.error m)
    (ht : is_transient_error m = true) :
    retry_loop collab jitter c 0 3 =
      { result := (retry_loop collab jitter c 1 2).result,
        calls := c :: (retry_loop collab jitter c 1 2).calls,
        sleeps := (base_delay * 2 ^ 0 + jitter 0) ::
          (retry_loop collab jitter c 1 2).sleeps } := by
  rw [show (3 : Nat) = 2 + 1 from rfl]
  simp [retry_loop, h, ht, max_retries]

/-- Unfolding of the loop at attempt 1 when the second attempt succeeds. -/
theorem retry_at1_ok (collab : Nat → String → AttemptOutcome) (jitter : Nat → ℚ)
    (c : String) (v : Json) (h : attempt_body (collab 1 c) = Except.ok v) :
    retry_loop collab jitter c 1 2 =
      { result := Except.ok v, calls := [c], sleeps := [] } := by
  rw [show (2 : Nat) = 1 + 1 from rfl]
  simp [retry_loop, h]

/-- Unfolding of the loop at attempt 1 when the second attempt fails with a
non-transient error. -/
theorem retry_at1_fatal (collab : Nat → String → AttemptOutcome) (jitter : Nat → ℚ)
    (c : String) (m : String) (h : attempt_body (collab 1 c) = Except.error m)
    (ht : is_transient_error m = false) :
    retry_loop collab jitter c 1 2 =
      { result := Except.error (HTTPException.mk 500 m), calls := [c], sleeps := [] } := by
  rw [show (2 : Nat) = 1 + 1 from rfl]
  simp [retry_loop, h, ht, max_retries]

/-- Unfolding of the loop at attempt 1 when the second attempt fails with a
transient error: sleep, then continue at attempt 2. -/
theorem retry_at1_retry (collab : Nat → String → AttemptOutcome) (jitter : Nat → ℚ)
    (c : String) (m : String) (h : attempt_body (collab 1 c) = Except.error m)
    (ht : is_transient_error m = true) :
    retry_loop collab jitter c 1 2 =
      { result := (retry_loop collab jitter c 2 1).result,
        calls := c :: (retry_loop collab jitter c 2 1).calls,
        sleeps := (base_delay * 2 ^ 1 + jitter 1) ::
          (retry_loop collab jitter c 2 1).sleeps } := by
  rw [show (2 : Nat) = 1 + 1 from rfl]
  simp [retry_loop, h, ht, max_retries]

/-- Unfolding of the loop at attempt 2 when the third attempt succeeds. -/
theorem retry_at2_ok (collab : Nat → String → AttemptOutcome) (jitter : Nat → ℚ)
    (c : String) (v : Json) (h : attempt_body (collab 2 c) = Except.ok v) :
    retry_loop collab jitter c 2 1 =
      { result := Except.ok v, calls := [c], sleeps := [] } := by
  rw [show (1 : Nat) = 0 + 1 from rfl]
  simp [retry_loop, h]

/-- Unfolding of the loop at attempt 2 when the third attempt fails: attempt 2
is the last attempt, so the loop raises regardless of the error class. -/
theorem retry_at2_err (collab : Nat → String → AttemptOutcome) (jitter : Nat → ℚ)
    (c : String) (m : String) (h : attempt_body (collab 2 c) = Except.error m) :
    retry_loop collab jitter c 2 1 =
      { result := Except.error (HTTPException.mk 500 m), calls := [c], sleeps := [] } := by
  rw [show (1 : Nat) = 0 + 1 from rfl]
  simp [retry_loop, h, max_retries]

/-- Complete case analysis of one endpoint run: exactly one of six terminal
shapes happens, determined by the outcomes of the at most three attempts. -/
theorem run_shape (data : LearnerRequest) (collab : Nat → String → AttemptOutcome)
    (jitter : Nat → ℚ) :
    (∃ v, attempt_body (collab 0 (contents_for data)) = Except.ok v ∧
      generate_notifications data collab jitter =
        { result := Except.ok v, calls := [contents_for data], sleeps := [] }) ∨
    (∃ m, attempt_body (collab 0 (contents_for data)) = Except.error m ∧
      is_transient_error m = false ∧
      generate_notifications data collab jitter =
        { result := Except.error (HTTPException.mk 500 m),
          calls := [contents_for data], sleeps := [] }) ∨
    (∃ m v, attempt_body (collab 0 (contents_for data)) = Except.error m ∧
      is_transient_error m = true ∧
      attempt_body (collab 1 (contents_for data)) = Except.ok v ∧
      generate_notifications data collab jitter =
        { result := Except.ok v,
          calls := [contents_for data, contents_for data],
          sleeps := [base_delay * 2 ^ 0 + jitter 0] }) ∨
    (∃ m m1, attempt_body (collab 0 (contents_for data)) = Except.error m ∧
      is_transient_error m = true ∧
      attempt_body (collab 1 (contents_for data)) = Except.error m1 ∧
      is_transient_error m1 = false ∧
      generate_notifications data collab jitter =
        { result := Except.error (HTTPException.mk 500 m1),
          calls := [contents_for data, contents_for data],
          sleeps := [base_delay * 2 ^ 0 + jitter 0] }) ∨
    (∃ m m1 v, attempt_body (collab 0 (contents_for data)) = Except.error m ∧
      is_transient_error m = true ∧
      attempt_body (collab 1 (contents_for data)) = Except.error m1 ∧
      is_transient_error m1 = true ∧
      attempt_body (collab 2 (contents_for data)) = Except.ok v ∧
      generate_notifications data collab jitter =
        { result := Except.ok v,
          calls := [contents_for data, contents_for data, contents_for data],
          sleeps := [base_delay * 2 ^ 0 + jitter 0, base_delay * 2 ^ 1 + jitter 1] }) ∨
    (∃ m m1 m2, attempt_body (collab 0 (contents_for data)) = Except.error m ∧
      is_transient_error m = true ∧
      attempt_body (collab 1 (contents_for data)) = Except.error m1 ∧
      is_transient_error m1 = true ∧
      attempt_body (collab 2 (contents_for data)) = Except.error m2 ∧
      generate_notifications data collab jitter =
        { result := Except.error (HTTPException.mk 500 m2),
          calls := [contents_for data, contents_for data, contents_for data],
          sleeps := [base_delay * 2 ^ 0 + jitter 0, base_delay * 2 ^ 1 + jitter 1] }) := by
  have hg : generate_notifications data collab jitter =
      retry_loop collab jitter (contents_for data) 0 3 := rfl
  cases h0 : attempt_body (collab 0 (contents_for data)) with
  | ok v =>
    exact Or.inl ⟨v, rfl, by rw [hg, retry_at0_ok collab jitter _ v h0]⟩
  | error m =>
    cases ht0 : is_transient_error m with
    | false =>
      exact Or.inr (Or.inl ⟨m, rfl, ht0,
        by rw [hg, retry_at0_fatal collab jitter _ m h0 ht0]⟩)
    | true =>
      have hr0 := retry_at0_retry collab jitter (contents_for data) m h0 ht0
      cases h1 : attempt_body (collab 1 (contents_for data)) with
      | ok v =>
        refine Or.inr (Or.inr (Or.inl ⟨m, v, rfl, ht0, rfl, ?_⟩))
        rw [hg, hr0, retry_at1_ok collab jitter _ v h1]
      | error m1 =>
        cases ht1 : is_transient_error m1 with
        | false =>
          refine Or.inr (Or.inr (Or.inr (Or.inl ⟨m, m1, rfl, ht0, rfl, ht1, ?_⟩)))
          rw [hg, hr0, retry_at1_fatal collab jitter _ m1 h1 ht1]
        | true =>
          have hr1 := retry_at1_retry collab jitter (contents_for data) m1 h1 ht1
          cases h2 : attempt_body (collab 2 (contents_for data)) with
          | ok v =>
            refine Or.inr (Or.inr (Or.inr (Or.inr (Or.inl
              ⟨m, m1, v, rfl, ht0, rfl, ht1, rfl, ?_⟩))))
            rw [hg, hr0, hr1, retry_at2_ok collab jitter _ v h2]
          | error m2 =>
            refine Or.inr (Or.inr (Or.inr (Or.inr (Or.inr
              ⟨m, m1, m2, rfl, ht0, rfl, ht1, rfl, ?_⟩))))
            rw [hg, hr0, hr1, retry_at2_err collab jitter _ m2 h2]

/-- The tail of the loop started at attempt 1 performs at least one further
collaborator call. -/
theorem retry_at1_calls_pos (collab : Nat → String → AttemptOutcome)
    (jitter : Nat → ℚ) (c : String) :
    1 ≤ (retry_loop collab jitter c 1 2).calls.length := by
  cases h1 : attempt_body (collab 1 c) with
  | ok v => rw [retry_at1_ok collab jitter c v h1]; exact Nat.le.refl
  | error m1 =>
    cases ht1 : is_transient_error m1 with
    | false => rw [retry_at1_fatal collab jitter c m1 h1 ht1]; exact Nat.le.refl
    | true =>
      rw [retry_at1_retry collab jitter c m1 h1 ht1]
      exact Nat.succ_le_succ (Nat.zero_le _)

/-- Claim C1 (counterexample): on the snapshot with empty payments and empty
videos, with a collaborator that would answer immediately, the operation still
invokes the collaborator once — there is no short-circuit. -/
theorem c1_collaborator_called_on_empty :
    (generate_notifications (LearnerRequest.mk [] [])
      (fun _ _ => AttemptOutcome.ok "[]") (fun _ => 0)).calls.length = 1 := rfl

/-- Claim C1 (amended): for every collaborator and jitter behavior, the run on
the empty snapshot performs at least one collaborator call, and the first call
carries the serialized empty snapshot. -/
theorem c1_amended_no_short_circuit (collab : Nat → String → AttemptOutcome)
    (jitter : Nat → ℚ) :
    1 ≤ (generate_notifications (LearnerRequest.mk [] []) collab jitter).calls.length ∧
    (generate_notifications (LearnerRequest.mk [] []) collab jitter).calls.head? =
      some (contents_for (LearnerRequest.mk [] [])) := by
  rcases run_shape (LearnerRequest.mk [] []) collab jitter with
      ⟨v, hb0, hr⟩ | ⟨m, hb0, ht0, hr⟩ | ⟨m, v, hb0, ht0, hb1, hr⟩ |
      ⟨m, m1, hb0, ht0, hb1, ht1, hr⟩ | ⟨m, m1, v, hb0, ht0, hb1, ht1, hb2, hr⟩ |
      ⟨m, m1, m2, hb0, ht0, hb1, ht1, hb2, hr⟩ <;>
    rw [hr] <;> exact ⟨Nat.succ_le_succ (Nat.zero_le _), rfl⟩

/-- Claim C2 (counterexample): two snapshots differing only in a timestamp have
identical derived event sequences under the specification's extractor, yet the
program sends the collaborator different payloads, so the collaborator input is
not derived from an extracted event sequence. -/
theorem c2_same_events_different_payload :
    signal_extractor_spec (LearnerRequest.mk [] [("v1", VideoInfo.mk 50 0 1 "Intro")]) =
      signal_extractor_spec (LearnerRequest.mk [] [("v1", VideoInfo.mk 50 999 1 "Intro")]) ∧
    (generate_notifications (LearnerRequest.mk [] [("v1", VideoInfo.mk 50 0 1 "Intro")])
        (fun _ _ => AttemptOutcome.ok "[]") (fun _ => 0)).calls ≠
      (generate_notifications (LearnerRequest.mk [] [("v1", VideoInfo.mk 50 999 1 "Intro")])
        (fun _ _ => AttemptOutcome.ok "[]") (fun _ => 0)).calls :=
  ⟨rfl, by decide⟩

/-- Claim C2 (amended): the program contains no Signal Extractor stage: the
string submitted to the generation collaborator is the raw snapshot
serialization and is not a function of the specification's derived event
sequence. -/
theorem c2_amended_payload_not_from_events :
    ¬ ∃ f : List Event → String, ∀ data : LearnerRequest,
      contents_for data = f (signal_extractor_spec data) := by
  rintro ⟨f, hf⟩
  have h1 := hf (LearnerRequest.mk [] [("v1", VideoInfo.mk 50 0 1 "Intro")])
  have h2 := hf (LearnerRequest.mk [] [("v1", VideoInfo.mk 50 999 1 "Intro")])
  have he : signal_extractor_spec (LearnerRequest.mk [] [("v1", VideoInfo.mk 50 0 1 "Intro")]) =
      signal_extractor_spec (LearnerRequest.mk [] [("v1", VideoInfo.mk 50 999 1 "Intro")]) := rfl
  rw [he, ← h2] at h1
  exact absurd h1 (by decide)

/-- Claim C3: when every attempt raises a transient-classified error, the
collaborator is invoked exactly 3 times and the operation fails with the last
message; no fourth attempt exists. -/
theorem c3_always_transient_three_calls (data : LearnerRequest)
    (collab : Nat → String → AttemptOutcome) (jitter : Nat → ℚ) (msgs : Nat → String)
    (hmsg : ∀ n, collab n (contents_for data) = AttemptOutcome.err (msgs n))
    (htr : ∀ n, is_transient_error (msgs n) = true) :
    (generate_notifications data collab jitter).calls.length = 3 ∧
    (generate_notifications data collab jitter).result =
      Except.error (HTTPException.mk 500 (msgs 2)) := by
  have b0 : attempt_body (collab 0 (contents_for data)) = Except.error (msgs 0) := by
    rw [hmsg 0]; rfl
  have b1 : attempt_body (collab 1 (contents_for data)) = Except.error (msgs 1) := by
    rw [hmsg 1]; rfl
  have b2 : attempt_body (collab 2 (contents_for data)) = Except.error (msgs 2) := by
    rw [hmsg 2]; rfl
  have hg : generate_notifications data collab jitter =
      retry_loop collab jitter (contents_for data) 0 3 := rfl
  rw [hg, retry_at0_retry collab jitter _ (msgs 0) b0 (htr 0),
    retry_at1_retry collab jitter _ (msgs 1) b1 (htr 1),
    retry_at2_err collab jitter _ (msgs 2) b2]
  exact ⟨rfl, rfl⟩

/-- Claim C3 (witness): the theorem applied to a stub that always fails with a
transient-coded message. -/
theorem c3_always_transient_three_calls_witness :
    is_transient_error "503 service unavailable" = true ∧
    (generate_notifications (LearnerRequest.mk [] [])
      (fun _ _ => AttemptOutcome.err "503 service unavailable") (fun _ => 0)).calls.length = 3 ∧
    (generate_notifications (LearnerRequest.mk [] [])
      (fun _ _ => AttemptOutcome.err "503 service unavailable") (fun _ => 0)).result =
      Except.error (HTTPException.mk 500 "503 service unavailable") :=
  ⟨by decide, c3_always_transient_three_calls (LearnerRequest.mk [] [])
    (fun _ _ => AttemptOutcome.err "503 service unavailable") (fun _ => 0)
    (fun _ => "503 service unavailable") (fun _ => rfl)
    (fun _ => (by decide : is_transient_error "503 service unavailable" = true))⟩

/-- Claim C4: a non-transient error on the first call fails the operation
immediately: one collaborator invocation, no sleep, the message surfaced with
status 500. -/
theorem c4_nontransient_fails_immediately (data : LearnerRequest)
    (collab : Nat → String → AttemptOutcome) (jitter : Nat → ℚ) (m : String)
    (h0 : collab 0 (contents_for data) = AttemptOutcome.err m)
    (hnt : is_transient_error m = false) :
    generate_notifications data collab jitter =
      { result := Except.error (HTTPException.mk 500 m),
        calls := [contents_for data], sleeps := [] } := by
  have b0 : attempt_body (collab 0 (contents_for data)) = Except.error m := by rw [h0]; rfl
  have hg : generate_notifications data collab jitter =
      retry_loop collab jitter (contents_for data) 0 3 := rfl
  rw [hg, retry_at0_fatal collab jitter _ m b0 hnt]

/-- Claim C4 (witness): the theorem applied to a stub failing with a message
containing none of the transient codes. -/
theorem c4_nontransient_fails_immediately_witness :
    is_transient_error "Invalid request" = false ∧
    generate_notifications (LearnerRequest.mk [] [])
        (fun _ _ => AttemptOutcome.err "Invalid request") (fun _ => 0) =
      { result := Except.error (HTTPException.mk 500 "Invalid request"),
        calls := [contents_for (LearnerRequest.mk [] [])], sleeps := [] } :=
  ⟨by decide, c4_nontransient_fails_immediately (LearnerRequest.mk [] [])
    (fun _ _ => AttemptOutcome.err "Invalid request") (fun _ => 0) "Invalid request"
    rfl (by decide)⟩

/-- Claim C5: two transient failures then a success: the parsed success value
is returned, exactly 3 invocations happen, and exactly two sleeps occur, one
before each retry, each equal to base_delay * 2 ^ attempt + jitter and hence at
least base_delay * 2 ^ attempt. -/
theorem c5_two_transient_then_success (data : LearnerRequest)
    (collab : Nat → String → AttemptOutcome) (jitter : Nat → ℚ)
    (m0 m1 t : String) (v : Json)
    (h0 : collab 0 (contents_for data) = AttemptOutcome.err m0)
    (ht0 : is_transient_error m0 = true)
    (h1 : collab 1 (contents_for data) = AttemptOutcome.err m1)
    (ht1 : is_transient_error m1 = true)
    (h2 : collab 2 (contents_for data) = AttemptOutcome.ok t)
    (hp : json_loads t = Except.ok v)
    (hj : ∀ n, 0 ≤ jitter n ∧ jitter n ≤ 1 / 2) :
    (generate_notifications data collab jitter).result = Except.ok v ∧
    (generate_notifications data collab jitter).calls.length = 3 ∧
    (generate_notifications data collab jitter).sleeps =
      [base_delay * 2 ^ 0 + jitter 0, base_delay * 2 ^ 1 + jitter 1] ∧
    base_delay * 2 ^ 0 ≤ base_delay * 2 ^ 0 + jitter 0 ∧
    base_delay * 2 ^ 1 ≤ base_delay * 2 ^ 1 + jitter 1 := by
  have b0 : attempt_body (collab 0 (contents_for data)) = Except.error m0 := by rw [h0]; rfl
  have b1 : attempt_body (collab 1 (contents_for data)) = Except.error m1 := by rw [h1]; rfl
  have b2 : attempt_body (collab 2 (contents_for data)) = Except.ok v := by rw [h2]; exact hp
  have hg : generate_notifications data collab jitter =
      retry_loop collab jitter (contents_for data) 0 3 := rfl
  rw [hg, retry_at0_retry collab jitter _ m0 b0 ht0,
    retry_at1_retry collab jitter _ m1 b1 ht1, retry_at2_ok collab jitter _ v b2]
  exact ⟨rfl, rfl, rfl, le_add_of_nonneg_right (hj 0).1, le_add_of_nonneg_right (hj 1).1⟩

/-- Claim C5 (witness): the theorem applied to a stub failing transiently twice
then succeeding with an empty JSON array, with zero jitter. -/
theorem c5_two_transient_then_success_witness :
    is_transient_error "429 quota" = true ∧
    is_transient_error "503 overloaded" = true ∧
    ((generate_notifications (LearnerRequest.mk [] [])
        (fun n _ => if n == 0 then AttemptOutcome.err "429 quota"
          else if n == 1 then AttemptOutcome.err "503 overloaded"
          else AttemptOutcome.ok "[]") (fun _ => 0)).result = Except.ok (Json.arr []) ∧
      (generate_notifications (LearnerRequest.mk [] [])
        (fun n _ => if n == 0 then AttemptOutcome.err "429 quota"
          else if n == 1 then AttemptOutcome.err "503 overloaded"
          else AttemptOutcome.ok "[]") (fun _ => 0)).calls.length = 3 ∧
      (generate_notifications (LearnerRequest.mk [] [])
        (fun n _ => if n == 0 then AttemptOutcome.err "429 quota"
          else if n == 1 then AttemptOutcome.err "503 overloaded"
          else AttemptOutcome.ok "[]") (fun _ => 0)).sleeps =
        [base_delay * 2 ^ 0 + 0, base_delay * 2 ^ 1 + 0] ∧
      base_delay * 2 ^ 0 ≤ base_delay * 2 ^ 0 + (0 : ℚ) ∧
      base_delay * 2 ^ 1 ≤ base_delay * 2 ^ 1 + (0 : ℚ)) :=
  ⟨by decide, by decide, c5_two_transient_then_success (LearnerRequest.mk [] [])
    (fun n _ => if n == 0 then AttemptOutcome.err "429 quota"
      else if n == 1 then AttemptOutcome.err "503 overloaded"
      else AttemptOutcome.ok "[]") (fun _ => 0)
    "429 quota" "503 overloaded" "[]" (Json.arr [])
    rfl (by decide) rfl (by decide) rfl rfl
    (fun n => ⟨le_refl 0, by norm_num⟩)⟩

/-- Claim C6: every run that surfaces a failure surfaces it with status-like
code 500, and its message is the message of the last executed attempt's
error. -/
theorem c6_failures_surfaced_as_500 (data : LearnerRequest)
    (collab : Nat → String → AttemptOutcome) (jitter : Nat → ℚ) (e : HTTPException)
    (h : (generate_notifications data collab jitter).result = Except.error e) :
    e.status_code = 500 ∧
    attempt_body (collab ((generate_notifications data collab jitter).calls.length - 1)
      (contents_for data)) = Except.error e.detail := by
  rcases run_shape data collab jitter with
      ⟨v, hb0, hr⟩ | ⟨m, hb0, ht0, hr⟩ | ⟨m, v, hb0, ht0, hb1, hr⟩ |
      ⟨m, m1, hb0, ht0, hb1, ht1, hr⟩ | ⟨m, m1, v, hb0, ht0, hb1, ht1, hb2, hr⟩ |
      ⟨m, m1, m2, hb0, ht0, hb1, ht1, hb2, hr⟩
  · rw [hr] at h; simp at h
  · rw [hr] at h ⊢
    replace h : Except.error (HTTPException.mk 500 m) = Except.error e := h
    injection h with h2
    subst h2
    exact ⟨rfl, hb0⟩
  · rw [hr] at h; simp at h
  · rw [hr] at h ⊢
    replace h : Except.error (HTTPException.mk 500 m1) = Except.error e := h
    injection h with h2
    subst h2
    exact ⟨rfl, hb1⟩
  · rw [hr] at h; simp at h
  · rw [hr] at h ⊢
    replace h : Except.error (HTTPException.mk 500 m2) = Except.error e := h
    injection h with h2
    subst h2
    exact ⟨rfl, hb2⟩

/-- Claim C6 (witness): the theorem applied to a run failing on a non-transient
stub error. -/
theorem c6_failures_surfaced_as_500_witness :
    (generate_notifications (LearnerRequest.mk [] [])
      (fun _ _ => AttemptOutcome.err "Invalid argument") (fun _ => 0)).result =
      Except.error (HTTPException.mk 500 "Invalid argument") ∧
    (HTTPException.mk 500 "Invalid argument").status_code = 500 ∧
    attempt_body ((fun _ _ => AttemptOutcome.err "Invalid argument")
        ((generate_notifications (LearnerRequest.mk [] [])
          (fun _ _ => AttemptOutcome.err "Invalid argument") (fun _ => 0)).calls.length - 1)
        (contents_for (LearnerRequest.mk [] []))) =
      Except.error (HTTPException.mk 500 "Invalid argument").detail :=
  ⟨rfl, c6_failures_surfaced_as_500 (LearnerRequest.mk [] [])
    (fun _ _ => AttemptOutcome.err "Invalid argument") (fun _ => 0)
    (HTTPException.mk 500 "Invalid argument") rfl⟩

/-- Claim C7: when the first attempt succeeds and its body parses, the parsed
value is returned to the caller verbatim, whatever it is — no local check
against the declared response schema is interposed. -/
theorem c7_success_returned_verbatim (data : LearnerRequest)
    (collab : Nat → String → AttemptOutcome) (jitter : Nat → ℚ) (t : String) (v : Json)
    (h0 : collab 0 (contents_for data) = AttemptOutcome.ok t)
    (hp : json_loads t = Except.ok v) :
    (generate_notifications data collab jitter).result = Except.ok v := by
  have b0 : attempt_body (collab 0 (contents_for data)) = Except.ok v := by
    rw [h0]; exact hp
  have hg : generate_notifications data collab jitter =
      retry_loop collab jitter (contents_for data) 0 3 := rfl
  rw [hg, retry_at0_ok collab jitter _ v b0]

/-- Claim C7 (witness): the theorem applied to a response body parsing to a
bare number, which violates the declared response schema yet is returned. -/
theorem c7_success_returned_verbatim_witness :
    json_loads "5" = Except.ok (Json.num 5) ∧
    matches_response_schema (Json.num 5) = false ∧
    (generate_notifications (LearnerRequest.mk [] [])
      (fun _ _ => AttemptOutcome.ok "5") (fun _ => 0)).result = Except.ok (Json.num 5) :=
  ⟨rfl, rfl, c7_success_returned_verbatim (LearnerRequest.mk [] [])
    (fun _ _ => AttemptOutcome.ok "5") (fun _ => 0) "5" (Json.num 5) rfl rfl⟩

/-- Claim C8 (counterexample): a successfully completed request whose returned
value is not a JSON array of 1 to 3 objects of the required shape: the
collaborator body parses to a bare number and is returned as the result. -/
theorem c8_unvalidated_result_shape :
    (generate_notifications (LearnerRequest.mk [] [])
      (fun _ _ => AttemptOutcome.ok "5") (fun _ => 0)).result = Except.ok (Json.num 5) ∧
    claim_c8_shape (Json.num 5) = false :=
  ⟨rfl, rfl⟩

/-- Claim C8 (amended): every successfully completed request returns exactly
the JSON parse of some collaborator attempt's response body; no shape
constraint is enforced locally. -/
theorem c8_amended_returns_parsed_attempt (data : LearnerRequest)
    (collab : Nat → String → AttemptOutcome) (jitter : Nat → ℚ) (v : Json)
    (h : (generate_notifications data collab jitter).result = Except.ok v) :
    ∃ n, n < max_retries ∧
      attempt_body (collab n (contents_for data)) = Except.ok v := by
  rcases run_shape data collab jitter with
      ⟨w, hb0, hr⟩ | ⟨m, hb0, ht0, hr⟩ | ⟨m, w, hb0, ht0, hb1, hr⟩ |
      ⟨m, m1, hb0, ht0, hb1, ht1, hr⟩ | ⟨m, m1, w, hb0, ht0, hb1, ht1, hb2, hr⟩ |
      ⟨m, m1, m2, hb0, ht0, hb1, ht1, hb2, hr⟩
  · rw [hr] at h
    replace h : Except.ok w = Except.ok v := h
    injection h with h2
    subst h2
    exact ⟨0, by decide, hb0⟩
  · rw [hr] at h; simp at h
  · rw [hr] at h
    replace h : Except.ok w = Except.ok v := h
    injection h with h2
    subst h2
    exact ⟨1, by decide, hb1⟩
  · rw [hr] at h; simp at h
  · rw [hr] at h
    replace h : Except.ok w = Except.ok v := h
    injection h with h2
    subst h2
    exact ⟨2, by decide, hb2⟩
  · rw [hr] at h; simp at h

/-- Claim C8 (amended, witness): the theorem applied to a run succeeding on the
first attempt with an empty array body. -/
theorem c8_amended_returns_parsed_attempt_witness :
    ∃ n, n < max_retries ∧
      attempt_body ((fun _ _ => AttemptOutcome.ok "[]") n
        (contents_for (LearnerRequest.mk [] []))) = Except.ok (Json.arr []) :=
  c8_amended_returns_parsed_attempt (LearnerRequest.mk [] [])
    (fun _ _ => AttemptOutcome.ok "[]") (fun _ => 0) (Json.arr []) rfl

/-- Claim C9: at the failing input (empty snapshot, collaborator failing
transiently on the first attempt while answering the second), the operation
passes a duration of at least one second to the sleep call between the two
attempts; src/main.py performs this wait with time.sleep inside the async
handler. -/
theorem c9_backoff_wait_exists :
    (generate_notifications (LearnerRequest.mk [] [])
      (fun n _ => if n == 0 then AttemptOutcome.err "429 rate limit" else AttemptOutcome.ok "[]")
      (fun _ => 0)).sleeps = [base_delay * 2 ^ 0 + 0] ∧
    (1 : ℚ) ≤ base_delay * 2 ^ 0 + 0 := by
  constructor
  · rfl
  · norm_num [base_delay]

/-- Claim C10: a successful collaborator call whose body fails to parse is
handled by the same except branch: the parse error message is classified by
the same substring rule; when non-transient it is surfaced at once as the
generic 500 failure carrying that message, and when transient a retry happens
after the backoff sleep — the malformed body is never returned. -/
theorem c10_parse_error_same_handler (data : LearnerRequest)
    (collab : Nat → String → AttemptOutcome) (jitter : Nat → ℚ) (t m : String)
    (h0 : collab 0 (contents_for data) = AttemptOutcome.ok t)
    (hp : json_loads t = Except.error m) :
    (is_transient_error m = false →
      generate_notifications data collab jitter =
        { result := Except.error (HTTPException.mk 500 m),
          calls := [contents_for data], sleeps := [] }) ∧
    (is_transient_error m = true →
      2 ≤ (generate_notifications data collab jitter).calls.length ∧
      (generate_notifications data collab jitter).sleeps.head? =
        some (base_delay * 2 ^ 0 + jitter 0)) := by
  have b0 : attempt_body (collab 0 (contents_for data)) = Except.error m := by
    rw [h0]; exact hp
  have hg : generate_notifications data collab jitter =
      retry_loop collab jitter (contents_for data) 0 3 := rfl
  constructor
  · intro hnt
    rw [hg, retry_at0_fatal collab jitter _ m b0 hnt]
  · intro htr
    rw [hg, retry_at0_retry collab jitter _ m b0 htr]
    exact ⟨Nat.succ_le_succ (retry_at1_calls_pos collab jitter _), rfl⟩

/-- Claim C10 (witness): the theorem applied to a body that is not JSON; the
parse error message contains no transient code, so the run fails at once with
that message. -/
theorem c10_parse_error_same_handler_witness :
    json_loads "oops" = Except.error "Expecting value" ∧
    is_transient_error "Expecting value" = false ∧
    generate_notifications (LearnerRequest.mk [] [])
        (fun _ _ => AttemptOutcome.ok "oops") (fun _ => 0) =
      { result := Except.error (HTTPException.mk 500 "Expecting value"),
        calls := [contents_for (LearnerRequest.mk [] [])], sleeps := [] } :=
  ⟨rfl, by decide, (c10_parse_error_same_handler (LearnerRequest.mk [] [])
    (fun _ _ => AttemptOutcome.ok "oops") (fun _ => 0) "oops" "Expecting value"
    rfl rfl).1 (by decide)⟩
